import Mathlib

/-!
Verification of `migrate-charts.py` (Helm chart OCI migration tool).

This file gives a shallow embedding of the script's logic in Lean.  External
effects (subprocess invocations of `helm`/`skopeo`, the Docker Hub HTTP tags
endpoint, the working-directory file system) are modelled by explicit oracle
values describing the outcome each external call would produce; the Python
control flow over those outcomes is translated function by function.  Python
exceptions are modelled with `Except`: a constructor such as
`InspectRun.fileNotFound` means the corresponding call raised that exception,
and each `try/except` clause of the source is reproduced by matching on the
error value exactly as the source's `except` tuples do.
-/

namespace MigrateCharts

/-- Python exception classes that the script can raise or catch. -/
inductive PyErr where
  | calledProcessError
  | fileNotFound
  | jsonDecodeError
  | timeoutExpired
  | requestException
  | keyError
  | osError
deriving DecidableEq, Repr

/-- Bool test that `pat` occurs as a contiguous sublist of the second list
(Python's `pat in s` on strings, after `toList`). -/
def listHasSegment (pat : List Char) : List Char → Bool
  | [] => pat.isEmpty
  | c :: cs => pat.isPrefixOf (c :: cs) || listHasSegment pat cs

/-- Python's substring test `pat in s`. -/
def strContains (s pat : String) : Bool :=
  listHasSegment pat.toList s.toList

/-- Python's `str.lower()` (ASCII case folding, character by character). -/
def strLower (s : String) : String :=
  ⟨s.data.map Char.toLower⟩

/-- Python's `str.startswith` / a glob pattern's literal prefix. -/
def strStarts (s p : String) : Bool :=
  p.data.isPrefixOf s.data

/-- Python's `str.endswith` / a glob pattern's literal suffix. -/
def strEnds (s p : String) : Bool :=
  p.data.isSuffixOf s.data

/- ## Classification probe 1: `_verify_helm_with_pull_temp` (lines 158-211) -/

/-- Outcome of the completed `helm pull --destination temp_dir` subprocess in
`_verify_helm_with_pull_temp`: return code, stderr text, and whether a `*.tgz`
file appeared in the temp directory (the `glob.glob(os.path.join(temp_dir,
"*.tgz"))` check at line 182). -/
structure PullRunResult where
  returncode : Int
  stderr : String
  tgzPresent : Bool
deriving DecidableEq, Repr

/-- The `helm pull` call in the pull-probe: either it raises one of the
exceptions caught at line 202 (`CalledProcessError`, `FileNotFoundError`,
`TimeoutExpired`), or it completes with a `PullRunResult`. -/
inductive PullRun where
  | raised (e : PyErr)
  | done (r : PullRunResult)
deriving DecidableEq, Repr

/-- The fixed phrase list of lines 189-195 used to recognise a confident
"not a chart" error from `helm pull`. -/
def notChartPhrases : List String :=
  ["not a helm chart", "unsupported media type", "invalid chart",
   "not found", "no such manifest"]

/-- The condition at lines 188-195: the lowered stderr of the pull attempt
contains one of the fixed "not a chart" phrases (the source's confident
negative test `any(phrase in error_msg for phrase in [...])`). -/
def pullConfidentNegative (r : PullRunResult) : Bool :=
  notChartPhrases.any fun p => strContains (strLower r.stderr) p

/-- `_verify_helm_with_pull_temp` (lines 158-211): `True` when the pull exits
0 and a `.tgz` file was produced (lines 180-185); otherwise the
confident-negative phrase branch returns `False` (line 196) and the
ambiguous-error branch also returns `False` (line 200); every caught
exception returns `False` as well (line 204). -/
def verify_helm_with_pull_temp : PullRun → Bool
  | .raised _ => false
  | .done r =>
    if r.returncode == 0 && r.tgzPresent then true
    else if pullConfidentNegative r then false
    else false

/- ## Classification probe 2: `_verify_helm_with_skopeo` (lines 213-255) -/

/-- The JSON document produced by `skopeo inspect`, with the fields the script
reads: `MediaType`, `Labels`, `config.Labels`, `Layers`, `Digest`, and the
truthiness of `config`, `config.Env`, `config.Cmd` used by
`_looks_like_helm_digest`. -/
structure InspectData where
  mediaType : String
  labels : List (String × String)
  configLabels : List (String × String)
  layers : List String
  digest : String
  configTruthy : Bool
  configEnvTruthy : Bool
  configCmdTruthy : Bool
deriving DecidableEq, Repr

/-- Lookup in `all_labels = {**labels, **config_labels}` (line 235): an entry
of `config.Labels` overrides one of `Labels` with the same key. -/
def lookupMergedLabels (d : InspectData) (k : String) : Option String :=
  match d.configLabels.lookup k with
  | some v => some v
  | none => d.labels.lookup k

/-- The fixed label-key list of `_check_helm_labels` (lines 286-293). -/
def helmLabelIndicators : List String :=
  ["org.opencontainers.image.title",
   "org.opencontainers.artifact.description",
   "io.artifacthub.package.readme-url",
   "org.opencontainers.image.description",
   "io.artifacthub.package.maintainers",
   "helm.sh/chart"]

/-- `_check_helm_labels` (lines 284-302): some indicator key is present in the
merged label dict and its lowered value contains "helm" or "chart". -/
def check_helm_labels (d : InspectData) : Bool :=
  helmLabelIndicators.any fun k =>
    match lookupMergedLabels d k with
    | some v => strContains (strLower v) "helm" || strContains (strLower v) "chart"
    | none => false

/-- `_looks_like_helm_digest` (lines 304-319): exactly one layer, and a truthy
`config` with no truthy `Env` or `Cmd`. -/
def looks_like_helm_digest (d : InspectData) : Bool :=
  if d.layers.length == 1 then
    d.configTruthy && !d.configEnvTruthy && !d.configCmdTruthy
  else false

/-- The decision taken by `_verify_helm_with_skopeo` on a successfully parsed
inspect document (lines 226-251): media-type substring check, then label
check, then the single-layer check, then the digest heuristic. -/
def verify_skopeo_parsed (d : InspectData) : Bool :=
  if strContains (strLower d.mediaType) "helm"
      || strContains (strLower d.mediaType) "chart" then true
  else if check_helm_labels d then true
  else if d.layers.length == 1 then true
  else if d.digest != "" && looks_like_helm_digest d then true
  else false

/-- `verify_skopeo_parsed` with the digest branch (probe 2d, lines 246-249)
deleted; used only to state that that branch is dead code. -/
def verify_skopeo_parsed_no_digest (d : InspectData) : Bool :=
  if strContains (strLower d.mediaType) "helm"
      || strContains (strLower d.mediaType) "chart" then true
  else if check_helm_labels d then true
  else if d.layers.length == 1 then true
  else false

/-- The `skopeo inspect` call: `fileNotFound` models a raised
`FileNotFoundError` (skopeo binary absent) — NOT in the `except` tuple at
line 253; `timeout` models a raised `TimeoutExpired` (caught); `done` carries
the return code, stderr, and the parse of stdout (`none` = `json.loads`
raised `JSONDecodeError`, caught at line 253). -/
inductive InspectRun where
  | fileNotFound
  | timeout
  | done (returncode : Int) (stderr : String) (parsed : Option InspectData)
deriving DecidableEq, Repr

/-- `_verify_helm_with_skopeo` (lines 213-255).  A raised
`FileNotFoundError` escapes (the `except` tuple at line 253 lists only
`CalledProcessError`, `JSONDecodeError`, `TimeoutExpired`); a timeout or a
JSON parse failure is caught and yields `False`; a non-zero exit yields
`False`; otherwise the parsed document is analysed. -/
def verify_helm_with_skopeo : InspectRun → Except PyErr Bool
  | .fileNotFound => .error .fileNotFound
  | .timeout => .ok false
  | .done rc _ parsed =>
    if rc != 0 then .ok false
    else
      match parsed with
      | none => .ok false
      | some d => .ok (verify_skopeo_parsed d)

/- ## Classification probe 3: `_verify_helm_oci_structure` (lines 257-282) -/

/-- The `skopeo copy --dry-run` call: `fileNotFound` models a raised
`FileNotFoundError` (not in the `except` tuple at line 281); `timeout` a
caught `TimeoutExpired`; `done` a completed run. -/
inductive CopyRun where
  | fileNotFound
  | timeout
  | done (returncode : Int) (stderr : String)
deriving DecidableEq, Repr

/-- `_verify_helm_oci_structure` (lines 257-282): positive iff the dry-run
copy exits 0; both the "unsupported"/"invalid" stderr branch and the final
fall-through return `False`; a caught `TimeoutExpired` returns `False`; a
raised `FileNotFoundError` escapes. -/
def verify_helm_oci_structure : CopyRun → Except PyErr Bool
  | .fileNotFound => .error .fileNotFound
  | .timeout => .ok false
  | .done rc _ => .ok (rc == 0)

/- ## `_is_helm_chart` (lines 136-156) -/

/-- The external-world outcomes seen while classifying one `chart:tag`. -/
structure ClassifyEnv where
  pull : PullRun
  inspect : InspectRun
  copy : CopyRun
deriving DecidableEq, Repr

/-- `_is_helm_chart` (lines 136-156): try the pull-probe, then the
inspect-probe, then the copy-probe, returning `true` at the first positive;
exceptions escaping a probe escape this function too (it has no handler of
its own). -/
def is_helm_chart (e : ClassifyEnv) : Except PyErr Bool :=
  if verify_helm_with_pull_temp e.pull then .ok true
  else
    match verify_helm_with_skopeo e.inspect with
    | .error er => .error er
    | .ok true => .ok true
    | .ok false => verify_helm_oci_structure e.copy

/-- The inspect-then-copy tail of `_is_helm_chart` (methods 2 and 3 of
lines 145-153), i.e. what the classifier computes once the pull-probe has
returned `False`. -/
def inspect_then_copy (e : ClassifyEnv) : Except PyErr Bool :=
  match verify_helm_with_skopeo e.inspect with
  | .error er => .error er
  | .ok true => .ok true
  | .ok false => verify_helm_oci_structure e.copy

/- ## Version listing: `_get_helm_versions_with_skopeo` (lines 72-112),
`_get_helm_versions_with_api` (lines 114-134), `get_chart_versions`
(lines 50-70) -/

/-- The `skopeo list-tags` call (with `check=True`): raised
`CalledProcessError` / `FileNotFoundError`, or a completed run whose stdout
parse is `none` (a raised `JSONDecodeError`) or the `Tags` array. -/
inductive ListTagsRun where
  | calledProcessError
  | fileNotFound
  | done (parsed : Option (List String))
deriving DecidableEq, Repr

/-- The Docker Hub tags HTTP call: a raised `RequestException`, or a response
with a status code and a parse of the body (`none` = JSON decode failure;
each entry is `none` when the `name` field is missing, which makes
`tag_info["name"]` raise `KeyError`). -/
inductive ApiRun where
  | requestException
  | done (status : Int) (parsed : Option (List (Option String)))
deriving DecidableEq, Repr

/-- All external outcomes seen while listing and filtering one chart's tags. -/
structure ChartEnv where
  listTags : ListTagsRun
  api : ApiRun
  classify : String → ClassifyEnv

/-- The per-tag filter loop of `_get_helm_versions_with_skopeo`
(lines 93-99): classify each tag in order, keeping the positives; an
exception raised by the classifier aborts the loop at that tag. -/
def filterHelmTags (classify : String → ClassifyEnv) :
    List String → Except PyErr (List String)
  | [] => .ok []
  | t :: ts =>
    match is_helm_chart (classify t) with
    | .error e => .error e
    | .ok b =>
      match filterHelmTags classify ts with
      | .error e => .error e
      | .ok rest => .ok (if b then t :: rest else rest)

/-- `_get_helm_versions_with_skopeo` (lines 72-112): list the tags, filter
them through the classifier, and return the qualifying list; the `except`
clauses at lines 104-112 catch `CalledProcessError`, `FileNotFoundError`
and `JSONDecodeError` anywhere in the body — including inside the per-tag
classifier calls — and return `None`; any other exception escapes. -/
def get_helm_versions_with_skopeo (env : ChartEnv) :
    Except PyErr (Option (List String)) :=
  match env.listTags with
  | .calledProcessError => .ok none
  | .fileNotFound => .ok none
  | .done none => .ok none
  | .done (some tags) =>
    match filterHelmTags env.classify tags with
    | .ok vs => .ok (some vs)
    | .error .calledProcessError => .ok none
    | .error .fileNotFound => .ok none
    | .error .jsonDecodeError => .ok none
    | .error e => .error e

/-- The per-entry filter loop of `_get_helm_versions_with_api`
(lines 124-129): a missing `name` field raises `KeyError`; otherwise classify
the tag, keeping positives; a classifier exception aborts the loop. -/
def filterHelmApi (classify : String → ClassifyEnv) :
    List (Option String) → Except PyErr (List String)
  | [] => .ok []
  | none :: _ => .error .keyError
  | some t :: ts =>
    match is_helm_chart (classify t) with
    | .error e => .error e
    | .ok b =>
      match filterHelmApi classify ts with
      | .error e => .error e
      | .ok rest => .ok (if b then t :: rest else rest)

/-- `_get_helm_versions_with_api` (lines 114-134): on HTTP 200 parse the body
and filter each entry's `name` through the classifier; the `except` clause at
line 132 catches `RequestException`, `JSONDecodeError` and `KeyError` and
falls to `return None`; any other exception — e.g. a `FileNotFoundError`
raised by the classifier — escapes; a non-200 status also reaches
`return None`. -/
def get_helm_versions_with_api (env : ChartEnv) :
    Except PyErr (Option (List String)) :=
  match env.api with
  | .requestException => .ok none
  | .done status parsed =>
    if status == 200 then
      match parsed with
      | none => .ok none
      | some entries =>
        match filterHelmApi env.classify entries with
        | .ok vs => .ok (some vs)
        | .error .requestException => .ok none
        | .error .jsonDecodeError => .ok none
        | .error .keyError => .ok none
        | .error e => .error e
    else .ok none

/-- `get_chart_versions` (lines 50-70): the skopeo lister, then the API
lister — each result used only if Python-truthy, i.e. a non-`None`,
non-empty list — and finally the `latest` fallback guarded by the
classifier. -/
def get_chart_versions (env : ChartEnv) : Except PyErr (List String) :=
  match get_helm_versions_with_skopeo env with
  | .error e => .error e
  | .ok (some (t :: ts)) => .ok (t :: ts)
  | .ok _ =>
    match get_helm_versions_with_api env with
    | .error e => .error e
    | .ok (some (t :: ts)) => .ok (t :: ts)
    | .ok _ =>
      match is_helm_chart (env.classify "latest") with
      | .error e => .error e
      | .ok b => .ok (if b then ["latest"] else [])

/- ## Working-directory model, `cleanup_local_files` (lines 321-334) -/

/-- An entry of the working directory: a name plus whether it is a
directory (`os.path.isdir`) or a regular file (`os.path.isfile`). -/
structure FSEntry where
  name : String
  isDir : Bool
deriving DecidableEq, Repr

/-- Whether a name is matched by one of the glob patterns `*.tgz`,
`*.tar.gz`, `temp-*` of line 323 (glob's `*` does not match a leading
dot). -/
def cleanupMatches (n : String) : Bool :=
  !(strStarts n ".")
    && (strEnds n ".tgz" || strEnds n ".tar.gz" || strStarts n "temp-")

/-- `cleanup_local_files` (lines 321-334): remove every matching file or
directory; an `OSError` on an individual removal (modelled by the
`removeFails` oracle) is swallowed by the `except OSError: pass` at
line 333 and leaves that entry in place. -/
def cleanup_local_files (removeFails : FSEntry → Bool) (fs : List FSEntry) :
    List FSEntry :=
  fs.filter fun e => !(cleanupMatches e.name) || removeFails e

/- ## Transfer executor: `migrate_chart_version` (lines 336-389) -/

/-- A `subprocess.run` invocation in the transfer executor (no `check=True`,
no timeout): either it raises, or it completes with a return code and
stderr. -/
inductive SubRun where
  | raised (e : PyErr)
  | done (returncode : Int) (stderr : String)
deriving DecidableEq, Repr

/-- External outcomes of one `migrate_chart_version chart version` call:
the `helm pull` run and the entries it drops into the working directory,
the `helm push` run, and whether the `os.remove` of the located file raises
`OSError`. -/
structure TransferEnv where
  pullRun : SubRun
  pulledFiles : List FSEntry
  pushRun : SubRun
  removeFails : Bool

/-- `glob.glob(f"{chart}-{version}.tgz")` (line 357): the pattern has no
wildcard, so it matches exactly that name. -/
def globExact (chart version : String) (fs : List FSEntry) : List FSEntry :=
  fs.filter fun e => e.name == chart ++ "-" ++ version ++ ".tgz"

/-- `glob.glob(f"{chart}-*.tgz")` (line 357): names extending the literal
prefix and suffix around the `*`. -/
def globLoose (chart : String) (fs : List FSEntry) : List FSEntry :=
  fs.filter fun e =>
    strStarts e.name (chart ++ "-") && strEnds e.name ".tgz"
      && (chart ++ "-").length + ".tgz".length ≤ e.name.length

/-- Line 357: `glob.glob(f"{chart}-{version}.tgz") or
glob.glob(f"{chart}-*.tgz")` — the loose pattern is consulted only when the
exact one matched nothing. -/
def locate_chart_file (chart version : String) (fs : List FSEntry) :
    List FSEntry :=
  let exact := globExact chart version fs
  if exact.isEmpty then globLoose chart fs else exact

/-- The `try`-block body of `migrate_chart_version` (lines 340-385),
threading the working-directory state: pull (a failure returns `False`),
locate the downloaded archive, push, then remove the archive with the
`except OSError: pass` of lines 374-377, and finally report the push's
return code.  An exception is returned as `.error` together with the
state at the moment it was raised. -/
def migrate_chart_version_body (chart version : String) (env : TransferEnv)
    (fs : List FSEntry) : Except (PyErr × List FSEntry) (Bool × List FSEntry) :=
  match env.pullRun with
  | .raised e => .error (e, fs)
  | .done rc _ =>
    let fs1 := fs ++ env.pulledFiles
    if rc != 0 then .ok (false, fs1)
    else
      match locate_chart_file chart version fs1 with
      | [] => .ok (false, fs1)
      | f :: _ =>
        match env.pushRun with
        | .raised e => .error (e, fs1)
        | .done prc _ =>
          let fs2 := if env.removeFails then fs1 else fs1.erase f
          .ok (prc == 0, fs2)

/-- `migrate_chart_version` (lines 336-389): the body wrapped in the
`except Exception` handler of line 387, which converts any raised exception
into the result `False`. -/
def migrate_chart_version (chart version : String) (env : TransferEnv)
    (fs : List FSEntry) : Bool × List FSEntry :=
  match migrate_chart_version_body chart version env fs with
  | .ok r => r
  | .error (_, fs1) => (false, fs1)

/- ## Orchestrator: `migrate_chart` (lines 391-435) -/

/-- The per-chart result dict built at lines 401 and 430-435. -/
structure MigrationResult where
  chart : String
  total : Nat
  success : Nat
  status : String
deriving DecidableEq, Repr

/-- All external outcomes consumed while migrating one chart: the listing
and classification outcomes, a transfer environment per version, and the
removal-failure oracle of the trailing `cleanup_local_files` call. -/
structure ChartJobEnv where
  chartEnv : ChartEnv
  transfer : String → TransferEnv
  cleanupFails : FSEntry → Bool

/-- The per-version loop of `migrate_chart` (lines 405-412): run each
version's transfer in order, counting the successes and threading the
working-directory state. -/
def runVersionsLoop (chart : String) (transfer : String → TransferEnv) :
    List String → List FSEntry → Nat × List FSEntry
  | [], fs => (0, fs)
  | v :: vs, fs =>
    let r := migrate_chart_version chart v (transfer v) fs
    let rest := runVersionsLoop chart transfer vs r.2
    ((if r.1 then 1 else 0) + rest.1, rest.2)

/-- `migrate_chart` (lines 391-435): list and filter the versions (an
exception from there escapes — there is no handler), return the
`no_helm_versions` result when none qualify, otherwise run every version,
clean up, and derive the status from the success count. -/
def migrate_chart (chart : String) (env : ChartJobEnv) (fs : List FSEntry) :
    Except PyErr (MigrationResult × List FSEntry) :=
  match get_chart_versions env.chartEnv with
  | .error e => .error e
  | .ok [] => .ok (⟨chart, 0, 0, "no_helm_versions"⟩, fs)
  | .ok (v :: vs) =>
    let r := runVersionsLoop chart env.transfer (v :: vs) fs
    let fs2 := cleanup_local_files env.cleanupFails r.2
    let total := (v :: vs).length
    let status :=
      if r.1 == total then "complete"
      else if r.1 > 0 then "partial"
      else "failed"
    .ok (⟨chart, total, r.1, status⟩, fs2)

/- ## `check_dependencies` (lines 40-48), `run_migration` (lines 451-477),
`main` (lines 517-544) -/

/-- The `helm version` pre-flight call of `check_dependencies` (run with
`check=True`): success, or one of the two caught exceptions. -/
inductive DepsRun where
  | ok
  | calledProcessError
  | fileNotFound
deriving DecidableEq, Repr

/-- `check_dependencies` (lines 40-48): `True` exactly when `helm version`
ran and exited 0. -/
def check_dependencies : DepsRun → Bool
  | .ok => true
  | _ => false

/-- All external outcomes of one whole run. -/
structure MainEnv where
  deps : DepsRun
  charts : List String
  jobs : String → ChartJobEnv
  initFs : List FSEntry
  preCleanupFails : FSEntry → Bool
  interrupted : Bool

/-- The chart loop of `run_migration` (lines 468-471): migrate each chart
in order, accumulating results; a chart-level exception aborts the loop. -/
def chartsLoop (jobs : String → ChartJobEnv) :
    List String → List FSEntry → Except PyErr (List MigrationResult × List FSEntry)
  | [], fs => .ok ([], fs)
  | c :: cs, fs =>
    match migrate_chart c (jobs c) fs with
    | .error e => .error e
    | .ok r =>
      match chartsLoop jobs cs r.2 with
      | .error e => .error e
      | .ok rest => .ok (r.1 :: rest.1, rest.2)

/-- An abnormal termination of `run_migration`: the `sys.exit(1)` at
line 462 (a `SystemExit`, caught by none of `main`'s handlers), or a Python
exception escaping the chart loop. -/
inductive RunErr where
  | systemExit
  | py (e : PyErr)
deriving DecidableEq, Repr

/-- `run_migration` (lines 451-477): pre-flight dependency check (fatal via
`sys.exit(1)` when it fails), pre-run cleanup, then the chart loop; the
summary and verification printing have no modelled effect. -/
def run_migration (env : MainEnv) : Except RunErr (List MigrationResult) :=
  if check_dependencies env.deps then
    let fs0 := cleanup_local_files env.preCleanupFails env.initFs
    match chartsLoop env.jobs env.charts fs0 with
    | .ok r => .ok r.1
    | .error e => .error (.py e)
  else .error .systemExit

/-- `main` (lines 517-544) as the process exit code: a `KeyboardInterrupt`
(the `interrupted` flag) or any exception escaping `run_migration` —
including the `SystemExit` of the failed pre-flight check — produces exit
code 1; a completed run falls off the end of `main` and the process exits
with code 0. -/
def pythonMain (env : MainEnv) : Nat :=
  if env.interrupted then 1
  else
    match run_migration env with
    | .ok _ => 0
    | .error _ => 1

/- ## Concrete environments used by the claim theorems below -/

/-- A pull attempt that fails with a confident "not a helm chart" error. -/
def c1Pull : PullRunResult := ⟨1, "Error: not a helm chart", false⟩

/-- An inspect document for a single-layer non-chart OCI artifact: neutral
media type, no labels, one layer. -/
def c1Data : InspectData :=
  ⟨"application/vnd.oci.image.manifest.v1+json", [], [], ["sha256:abc"],
   "sha256:xyz", false, false, false⟩

/-- Classification outcomes: confident pull negative, but the inspect call
succeeds and reports the single-layer document `c1Data`. -/
def c1Env : ClassifyEnv := ⟨.done c1Pull, .done 0 "" (some c1Data), .done 0 ""⟩

/-- A classification in which the pull-probe is ambiguous and the inspect
call raises `FileNotFoundError` (skopeo binary absent). -/
def c3RaisingEnv : ClassifyEnv :=
  ⟨.done ⟨1, "connection reset", false⟩, .fileNotFound, .timeout⟩

/-- A classification that succeeds positively at the pull-probe. -/
def c3GoodEnv : ClassifyEnv := ⟨.done ⟨0, "", true⟩, .timeout, .timeout⟩

/-- Per-tag classification outcomes: tag "a" raises, every other tag is a
chart. -/
def c3Classify : String → ClassifyEnv :=
  fun t => if t == "a" then c3RaisingEnv else c3GoodEnv

/-- A chart whose skopeo lister succeeds with tags ["a", "b"], with the
classifier raising on "a". -/
def c3EnvSk : ChartEnv := ⟨.done (some ["a", "b"]), .requestException, c3Classify⟩

/-- A chart whose skopeo lister is unavailable and whose API lister returns
tags ["a", "b"], with the classifier raising on "a". -/
def c3EnvApi : ChartEnv :=
  ⟨.fileNotFound, .done 200 (some [some "a", some "b"]), c3Classify⟩

/-- An arbitrary transfer environment (never reached in the C3 scenario). -/
def c3Transfer : TransferEnv := ⟨.raised .osError, [], .raised .osError, false⟩

/-- The per-chart job for the C3 scenario. -/
def c3Job : ChartJobEnv := ⟨c3EnvApi, fun _ => c3Transfer, fun _ => false⟩

/-- A chart with neither lister available and whose "latest" tag fails every
classification probe. -/
def c4Env : ChartEnv :=
  ⟨.fileNotFound, .requestException,
   fun _ => ⟨.done ⟨1, "server gave HTTP response", false⟩, .timeout, .done 1 "x"⟩⟩

/-- The archive that `helm pull` drops into the working directory in the C5
scenario. -/
def c5File : FSEntry := ⟨"open5gs-bsf-1.2.3.tgz", false⟩

/-- A transfer whose pull succeeds, producing `c5File`, and whose push fails
with a non-zero exit. -/
def c5Transfer : TransferEnv := ⟨.done 0 "", [c5File], .done 1 "push denied", false⟩

/-- A transfer whose `helm pull` call raises `FileNotFoundError`. -/
def c6Transfer : TransferEnv := ⟨.raised .fileNotFound, [], .done 0 "", false⟩

/-- A classification that succeeds positively at the pull-probe. -/
def c7GoodClassify : ClassifyEnv := ⟨.done ⟨0, "", true⟩, .timeout, .timeout⟩

/-- A per-chart job whose single version qualifies but whose transfer fails
(download exits non-zero), giving a `failed` per-chart result. -/
def c7Job : ChartJobEnv :=
  ⟨⟨.done (some ["1.0.0"]), .requestException, fun _ => c7GoodClassify⟩,
   fun _ => ⟨.done 1 "pull failed", [], .done 0 "", false⟩,
   fun _ => false⟩

/-- A full run: dependencies present, no interrupt, two charts that both fail
every transfer. -/
def c7Env : MainEnv :=
  ⟨.ok, ["open5gs-upf", "open5gs-smf"], fun _ => c7Job, [], fun _ => false, false⟩

/-- A classification that fails every probe (non-chart image). -/
def c10BadClassify : ClassifyEnv :=
  ⟨.done ⟨1, "pulled: manifest unknown", false⟩,
   .done 0 ""
     (some ⟨"application/vnd.docker.distribution.manifest.v2+json", [], [],
            ["l1", "l2"], "", true, true, true⟩),
   .done 1 "unsupported image format"⟩

/-- A classification that succeeds positively at the pull-probe. -/
def c10LatestClassify : ClassifyEnv := ⟨.done ⟨0, "", true⟩, .timeout, .timeout⟩

/-- A chart whose skopeo lister succeeds with one tag that fails
classification, while "latest" passes it. -/
def c10Env : ChartEnv :=
  ⟨.done (some ["bad-image"]), .requestException,
   fun t => if t == "latest" then c10LatestClassify else c10BadClassify⟩

/-- The two-version scenario of C2's witness: both versions qualify (their
pull-probe succeeds), the first transfer succeeds and the second one's push
is rejected. -/
def c2Job : ChartJobEnv :=
  ⟨⟨.done (some ["1.0.0", "2.0.0"]), .requestException, fun _ => c7GoodClassify⟩,
   fun v =>
     if v == "1.0.0" then
       ⟨.done 0 "", [⟨"foo-1.0.0.tgz", false⟩], .done 0 "", false⟩
     else
       ⟨.done 0 "", [⟨"foo-2.0.0.tgz", false⟩], .done 1 "push denied", false⟩,
   fun _ => false⟩

/-- The per-chart result produced in the C2 witness scenario. -/
def c2Res : MigrationResult := ⟨"foo", 2, 1, "partial"⟩

/- ## Claim theorems -/

/-- The success counter of the per-version loop never exceeds the number of
versions processed. -/
theorem runVersionsLoop_le (chart : String) (transfer : String → TransferEnv)
    (vs : List String) (fs : List FSEntry) :
    (runVersionsLoop chart transfer vs fs).1 ≤ vs.length := by
  induction vs generalizing fs with
  | nil => simp [runVersionsLoop]
  | cons v vs ih =>
    simp only [runVersionsLoop, List.length_cons]
    have h := ih (migrate_chart_version chart v (transfer v) fs).2
    rcases (migrate_chart_version chart v (transfer v) fs).1 with _ | _ <;>
      simp <;> omega

/-- C1: the claim says a confident pull-probe negative (stderr matching a
"not a chart" phrase) makes `is_helm_chart` return false, with the later
probes unable to override it.  The code violates this: the phrase branch of
`_verify_helm_with_pull_temp` is dead (the probe's value ignores the phrase
test entirely, first conjunct), so `_is_helm_chart` cannot distinguish a
confident negative from an inconclusive one and consults the inspect-probe,
which here overrides the confident negative to positive via the single-layer
check: on `c1Env` the pull stderr is "Error: not a helm chart" yet
`is_helm_chart` returns `.ok true`. -/
theorem c1_confident_negative_overridden :
    (∀ r : PullRunResult,
      verify_helm_with_pull_temp (.done r) = (r.returncode == 0 && r.tgzPresent)) ∧
    pullConfidentNegative c1Pull = true ∧
    verify_helm_with_pull_temp (.done c1Pull) = false ∧
    is_helm_chart c1Env = .ok true := by
  refine ⟨?_, by decide, by decide, by rfl⟩
  intro r
  unfold verify_helm_with_pull_temp
  rcases h : (r.returncode == 0 && r.tgzPresent) with _ | _ <;>
    rcases hc : pullConfidentNegative r with _ | _ <;> simp [h, hc]

/-- C2: for every chart result returned by `migrate_chart`,
`success ≤ total`, and the status string is exactly determined by
`(success, total)`: "complete" iff `success = total > 0`, "partial" iff
`0 < success < total`, "failed" iff `success = 0 < total`, and the
`total = 0` status (the code's literal string is "no_helm_versions", the
spec's name for it is no_qualifying_versions) iff `total = 0`; no other
status is reachable. -/
theorem c2_status_determined (chart : String) (env : ChartJobEnv)
    (fs : List FSEntry) (r : MigrationResult) (fs2 : List FSEntry)
    (h : migrate_chart chart env fs = .ok (r, fs2)) :
    r.success ≤ r.total ∧
    (r.status = "complete" ↔ r.success = r.total ∧ 0 < r.total) ∧
    (r.status = "partial" ↔ 0 < r.success ∧ r.success < r.total) ∧
    (r.status = "failed" ↔ r.success = 0 ∧ 0 < r.total) ∧
    (r.status = "no_helm_versions" ↔ r.total = 0) ∧
    (r.status = "complete" ∨ r.status = "partial" ∨ r.status = "failed" ∨
      r.status = "no_helm_versions") := by
  unfold migrate_chart at h
  cases hv : get_chart_versions env.chartEnv with
  | error e => rw [hv] at h; exact absurd h (by simp)
  | ok versions =>
    rw [hv] at h
    cases versions with
    | nil =>
      simp only [Except.ok.injEq, Prod.mk.injEq] at h
      obtain ⟨h1, _⟩ := h
      subst h1
      refine ⟨Nat.le_refl 0, ?_, ?_, ?_, ?_, ?_⟩ <;> simp
    | cons v vs =>
      simp only [Except.ok.injEq, Prod.mk.injEq] at h
      obtain ⟨h1, _⟩ := h
      subst h1
      have hle := runVersionsLoop_le chart env.transfer (v :: vs) fs
      set n := (runVersionsLoop chart env.transfer (v :: vs) fs).1 with hn
      set total := (v :: vs).length with htot
      have htpos : 0 < total := by simp [htot]
      by_cases hc : n = total
      · simp only [hc, beq_self_eq_true, if_true]
        refine ⟨le_refl _, ?_, ?_, ?_, ?_, ?_⟩ <;> simp <;> omega
      · have hbe : (n == total) = false := by simp [hc]
        rw [hbe]
        simp only [Bool.false_eq_true, if_false]
        by_cases hp : n > 0
        · simp only [hp, if_true]
          refine ⟨hle, ?_, ?_, ?_, ?_, ?_⟩ <;> simp <;> omega
        · simp only [hp, if_false]
          refine ⟨hle, ?_, ?_, ?_, ?_, ?_⟩ <;> simp <;> omega

/-- C2 witness: the spec's own §8 scenario — two qualifying versions, one
transfer succeeds, one fails — yields `⟨"foo", 2, 1, "partial"⟩`, at which
the status laws of `c2_status_determined` hold. -/
theorem c2_status_determined_witness :
    migrate_chart "foo" c2Job [] = .ok (c2Res, []) ∧
    (c2Res.success ≤ c2Res.total ∧
     (c2Res.status = "complete" ↔ c2Res.success = c2Res.total ∧ 0 < c2Res.total) ∧
     (c2Res.status = "partial" ↔ 0 < c2Res.success ∧ c2Res.success < c2Res.total) ∧
     (c2Res.status = "failed" ↔ c2Res.success = 0 ∧ 0 < c2Res.total) ∧
     (c2Res.status = "no_helm_versions" ↔ c2Res.total = 0) ∧
     (c2Res.status = "complete" ∨ c2Res.status = "partial" ∨
       c2Res.status = "failed" ∨ c2Res.status = "no_helm_versions")) :=
  ⟨by rfl, c2_status_determined "foo" c2Job [] c2Res [] (by rfl)⟩

/-- C3: the claim says a raised classifier error only excludes that single
tag, never aborts the filter, and never propagates past the per-chart loop.
The code violates this: classifying tag "a" raises `FileNotFoundError`
(skopeo absent; the `except` tuple of `_verify_helm_with_skopeo` does not
catch it) while tag "b" classifies positively; in the skopeo-lister loop the
error is caught at the lister boundary, aborting the whole filter to `None`
("b" is lost too, instead of the claim's `["b"]`); in the API-lister loop the
error is not caught at all and propagates out of `get_chart_versions` and
out of `migrate_chart`. -/
theorem c3_classifier_error_aborts :
    is_helm_chart (c3Classify "a") = .error .fileNotFound ∧
    is_helm_chart (c3Classify "b") = .ok true ∧
    get_helm_versions_with_skopeo c3EnvSk = .ok none ∧
    get_chart_versions c3EnvApi = .error .fileNotFound ∧
    migrate_chart "open5gs-upf" c3Job [] = .error .fileNotFound :=
  ⟨by rfl, by rfl, by rfl, by rfl, by rfl⟩

/-- C4: when both listing attempts yield no data (`None` or an empty list —
both Python-falsy), `get_chart_versions` returns `["latest"]` exactly when
"latest" passes classification, and `[]` otherwise. -/
theorem c4_latest_fallback (env : ChartEnv) (b : Bool)
    (h1 : get_helm_versions_with_skopeo env = .ok none ∨
          get_helm_versions_with_skopeo env = .ok (some []))
    (h2 : get_helm_versions_with_api env = .ok none ∨
          get_helm_versions_with_api env = .ok (some []))
    (h3 : is_helm_chart (env.classify "latest") = .ok b) :
    get_chart_versions env = .ok (if b then ["latest"] else []) := by
  unfold get_chart_versions
  rcases h1 with h1 | h1 <;> rcases h2 with h2 | h2 <;> rw [h1, h2, h3]

/-- C4 witness: with both listers unavailable and "latest" failing every
probe, the listed versions are `[]`, not `["latest"]`. -/
theorem c4_latest_fallback_witness :
    (get_helm_versions_with_skopeo c4Env = .ok none ∨
      get_helm_versions_with_skopeo c4Env = .ok (some [])) ∧
    (get_helm_versions_with_api c4Env = .ok none ∨
      get_helm_versions_with_api c4Env = .ok (some [])) ∧
    is_helm_chart (c4Env.classify "latest") = .ok false ∧
    get_chart_versions c4Env = .ok (if false then ["latest"] else []) :=
  ⟨Or.inl (by rfl), Or.inl (by rfl), by rfl,
   c4_latest_fallback c4Env false (Or.inl (by rfl)) (Or.inl (by rfl)) (by rfl)⟩

/-- C5: whenever the transfer locates a downloaded package file and the
upload subprocess runs to completion, the returned result is exactly the
push's exit status — independent of whether the `os.remove` raised — and the
located file is erased from the working directory when the removal does not
fail (even when the upload failed), while a failed removal is swallowed and
leaves the state otherwise unchanged. -/
theorem c5_local_file_removed (chart version : String) (env : TransferEnv)
    (fs : List FSEntry) (spull : String) (f : FSEntry) (rest : List FSEntry)
    (prc : Int) (spush : String)
    (hpull : env.pullRun = .done 0 spull)
    (hloc : locate_chart_file chart version (fs ++ env.pulledFiles) = f :: rest)
    (hpush : env.pushRun = .done prc spush) :
    (migrate_chart_version chart version env fs).1 = (prc == 0) ∧
    (env.removeFails = false →
      (migrate_chart_version chart version env fs).2 =
        (fs ++ env.pulledFiles).erase f) ∧
    (env.removeFails = true →
      (migrate_chart_version chart version env fs).2 = fs ++ env.pulledFiles) := by
  rcases hrf : env.removeFails with _ | _ <;>
    simp [migrate_chart_version, migrate_chart_version_body, hpull, hloc,
      hpush, hrf]

/-- C5 witness: a pull that downloads `open5gs-bsf-1.2.3.tgz` followed by a
rejected push still removes the archive, and the result is the push's
failure. -/
theorem c5_local_file_removed_witness :
    c5Transfer.pullRun = .done 0 "" ∧
    locate_chart_file "open5gs-bsf" "1.2.3" ([] ++ c5Transfer.pulledFiles) =
      [c5File] ∧
    c5Transfer.pushRun = .done 1 "push denied" ∧
    (migrate_chart_version "open5gs-bsf" "1.2.3" c5Transfer []).1 =
      ((1 : Int) == 0) ∧
    (c5Transfer.removeFails = false →
      (migrate_chart_version "open5gs-bsf" "1.2.3" c5Transfer []).2 =
        ([] ++ c5Transfer.pulledFiles).erase c5File) := by
  refine ⟨by rfl, by rfl, by rfl, ?_, ?_⟩
  · exact (c5_local_file_removed "open5gs-bsf" "1.2.3" c5Transfer [] "" c5File
      [] 1 "push denied" (by rfl) (by rfl) (by rfl)).1
  · exact (c5_local_file_removed "open5gs-bsf" "1.2.3" c5Transfer [] "" c5File
      [] 1 "push denied" (by rfl) (by rfl) (by rfl)).2.1

/-- C6: whenever the download/locate/upload body of `migrate_chart_version`
raises, the `except Exception` wrapper converts it to the result `false`
(with the working directory as the body left it); no exception reaches the
caller — `migrate_chart_version` is a total function into `Bool`. -/
theorem c6_no_exception_escapes (chart version : String) (env : TransferEnv)
    (fs fs1 : List FSEntry) (e : PyErr)
    (h : migrate_chart_version_body chart version env fs = .error (e, fs1)) :
    migrate_chart_version chart version env fs = (false, fs1) := by
  unfold migrate_chart_version
  rw [h]

/-- C6 witness: a `helm pull` raising `FileNotFoundError` makes the transfer
return `false` instead of propagating. -/
theorem c6_no_exception_escapes_witness :
    migrate_chart_version_body "open5gs-smf" "1.0.0" c6Transfer [] =
      .error (.fileNotFound, []) ∧
    migrate_chart_version "open5gs-smf" "1.0.0" c6Transfer [] = (false, []) :=
  ⟨by rfl,
   c6_no_exception_escapes "open5gs-smf" "1.0.0" c6Transfer [] [] .fileNotFound
     (by rfl)⟩

/-- C7: the process exit code is 0 or 1, and it is 0 exactly when there was
no interrupt, the pre-flight helm check succeeded, and the whole per-chart
loop completed without an escaping exception — regardless of the per-chart
success/failure mix, which `chartsLoop`'s `.isOk` does not inspect. -/
theorem c7_exit_codes (env : MainEnv) :
    (pythonMain env = 0 ∨ pythonMain env = 1) ∧
    (pythonMain env = 0 ↔
      env.interrupted = false ∧ check_dependencies env.deps = true ∧
      (chartsLoop env.jobs env.charts
        (cleanup_local_files env.preCleanupFails env.initFs)).isOk = true) := by
  unfold pythonMain run_migration
  rcases hi : env.interrupted with _ | _
  · rcases hd : check_dependencies env.deps with _ | _
    · simp [hd]
    · rcases hc : chartsLoop env.jobs env.charts
        (cleanup_local_files env.preCleanupFails env.initFs) with e | r <;>
        simp [hd, hc, Except.isOk, Except.toBool]
  · simp

/-- C7 witness: a run in which every chart's only transfer fails still exits
with code 0. -/
theorem c7_exit_codes_witness : pythonMain c7Env = 0 :=
  (c7_exit_codes c7Env).2.mpr ⟨rfl, rfl, by rfl⟩

/-- C8: the cleanup pass is idempotent — a second run on the directory state
left by a first run (same per-entry removal-failure behaviour, no new files
in between) changes nothing; removal errors are swallowed by construction,
so no run raises. -/
theorem c8_cleanup_idempotent (removeFails : FSEntry → Bool)
    (fs : List FSEntry) :
    cleanup_local_files removeFails (cleanup_local_files removeFails fs) =
      cleanup_local_files removeFails fs := by
  unfold cleanup_local_files
  rw [List.filter_filter]
  simp

/-- C9: the digest heuristic (probe 2d) is dead code as a positive signal:
deleting it from the parsed-inspect decision changes nothing, because
`_looks_like_helm_digest` can be true only for single-layer documents, which
the preceding single-layer check (probe 2c) has already classified
positive. -/
theorem c9_digest_probe_dead (d : InspectData) :
    verify_skopeo_parsed d = verify_skopeo_parsed_no_digest d := by
  unfold verify_skopeo_parsed verify_skopeo_parsed_no_digest looks_like_helm_digest
  rcases h : (d.layers.length == 1) with _ | _ <;> simp [h]

/-- C10: a successful tag listing in which zero tags qualify is treated
exactly like an unavailable tag-listing tool (the Python truthiness test
cannot tell `[]` from `None`): `get_chart_versions` proceeds to the HTTP
endpoint and the "latest" fallback. -/
theorem c10_empty_qualifying_falls_through (env : ChartEnv) (tags : List String)
    (h1 : env.listTags = .done (some tags))
    (h2 : filterHelmTags env.classify tags = .ok []) :
    get_chart_versions env =
      get_chart_versions { env with listTags := ListTagsRun.fileNotFound } := by
  unfold get_chart_versions get_helm_versions_with_skopeo
  rw [h1]
  simp only [h2]
  rfl

/-- C10 witness: a chart whose listed tag "bad-image" fails classification
while "latest" passes it still ends up migrating `["latest"]`. -/
theorem c10_empty_qualifying_falls_through_witness :
    c10Env.listTags = .done (some ["bad-image"]) ∧
    filterHelmTags c10Env.classify ["bad-image"] = .ok [] ∧
    get_chart_versions c10Env =
      get_chart_versions { c10Env with listTags := ListTagsRun.fileNotFound } ∧
    get_chart_versions c10Env = .ok ["latest"] :=
  ⟨by rfl, by rfl,
   c10_empty_qualifying_falls_through c10Env ["bad-image"] (by rfl) (by rfl),
   by rfl⟩

end MigrateCharts
